import Mathlib

/-!
Verification development for the troika-http repository.

Shallow embedding of the modules src/troika/http/escape.py, server.py,
route.py, handlers.py, transcoders.py and application.py, restricted to the
value domain that the verified properties exercise.  Python values are
embedded as the inductive type PyValue (the uuid, datetime, float, bytearray
and memoryview shapes handled by the source are outside this domain and are
noted at each definition they would touch).  Python exceptions are embedded
as the inductive type PyExc; a fallible Python callable becomes a function
into Except PyExc.  Mutable per-request state becomes explicit state passing.
External collaborators of the repository (the ietfparse header parser, the
re module, the json serializer) are embedded by their documented behaviour at
exactly the call shapes the source uses; each such embedding carries a doc
comment saying so.
-/

namespace Troika

/-- Embedded Python values: the value domain of the embedding.  Bytes are
lists of byte values (each < 256 at every construction site).  Python dicts
preserve insertion order, so a dict is an association list. -/
inductive PyValue where
  | none
  | bool (b : Bool)
  | int (n : Int)
  | str (s : String)
  | bytes (bs : List Nat)
  | list (xs : List PyValue)
  | dict (kvs : List (PyValue × PyValue))

/-- Embedded Python exceptions.  finishSignal and httpError embed
troika.http.exceptions.Finish and HTTPError (exceptions.py, where Finish
carries its args tuple and HTTPError a status code); the remaining
constructors embed built-in Python exception classes, carrying the message
text.  noMatch embeds ietfparse.errors.NoMatch. -/
inductive PyExc where
  | finishSignal (payload : Option PyValue)
  | httpError (statusCode : Nat)
  | valueError (msg : String)
  | typeError (msg : String)
  | runtimeError (msg : String)
  | keyError (key : String)
  | attributeError (msg : String)
  | recursionError
  | noMatch
  | otherError (msg : String)

/-- Python truthiness of an embedded value, as used by the source in tests
such as the chunk guard of RequestHandler.finish (handlers.py line 94). -/
def pyTruthy : PyValue → Bool
  | .none => false
  | .bool b => b
  | .int n => n != 0
  | .str s => s.length != 0
  | .bytes bs => bs.length != 0
  | .list xs => xs.length != 0
  | .dict kvs => kvs.length != 0

/-- Python type name of an embedded value, used when the source interpolates
type(value) into an error message. -/
def pyTypeName : PyValue → String
  | .none => "NoneType"
  | .bool _ => "bool"
  | .int _ => "int"
  | .str _ => "str"
  | .bytes _ => "bytes"
  | .list _ => "list"
  | .dict _ => "dict"

/-- UTF-8 encoding of one character, exactly the bytes CPython's
str.encode with the utf-8 codec produces for it. -/
def utf8EncodeChar (c : Char) : List Nat :=
  let n := c.toNat
  if n < 0x80 then [n]
  else if n < 0x800 then
    [0xC0 ||| (n >>> 6), 0x80 ||| (n &&& 0x3F)]
  else if n < 0x10000 then
    [0xE0 ||| (n >>> 12), 0x80 ||| ((n >>> 6) &&& 0x3F), 0x80 ||| (n &&& 0x3F)]
  else
    [0xF0 ||| (n >>> 18), 0x80 ||| ((n >>> 12) &&& 0x3F),
     0x80 ||| ((n >>> 6) &&& 0x3F), 0x80 ||| (n &&& 0x3F)]

/-- UTF-8 encoding of a string: chunk.encode of the source with the utf-8
codec (handlers.py line 214). -/
def utf8Encode (s : String) : List Nat :=
  s.data.foldr (fun c acc => utf8EncodeChar c ++ acc) []

/-- Latin-1 decoding of a byte list: value.decode with the latin1 codec
(server.py line 208).  Latin-1 maps each byte to the code point of the same
number, so this is exact. -/
def latin1Decode (bs : List Nat) : String :=
  String.mk (bs.map Char.ofNat)

/-! Server module: src/troika/http/server.py -/

/-- Embedding of the compiled regular expression search
INVALID_HEADER_CHAR_RE.match(value) of server.py line 216, where the pattern
is the character class of the bytes 0x00 to 0x1f (line 21).  re.match is
anchored at the start of the string, so for a single-character-class pattern
it succeeds exactly when the string is nonempty and its first character lies
in the class.  Returns true when the match succeeds. -/
def invalidHeaderCharMatch (s : String) : Bool :=
  match s.data with
  | [] => false
  | c :: _ => c.toNat ≤ 0x1f

/-- Embedding of server.normalize_header_value (server.py lines 204 to 218),
written with a leading underscore in the source.  String values pass
through, bytes decode as latin-1, integers stringify; the datetime branch of
the source is outside the embedded value domain; every other value raises
ValueError.  The source interpolates repr(value) into the unsafe-value
message; the embedding interpolates the plain string. -/
def normalize_header_value (v : PyValue) : Except PyExc String :=
  match v with
  | .str s =>
      if invalidHeaderCharMatch s then
        .error (.valueError ("Unsafe header value: " ++ s))
      else .ok s
  | .bytes bs =>
      let s := latin1Decode bs
      if invalidHeaderCharMatch s then
        .error (.valueError ("Unsafe header value: " ++ s))
      else .ok s
  | .int n =>
      let s := toString n
      if invalidHeaderCharMatch s then
        .error (.valueError ("Unsafe header value: " ++ s))
      else .ok s
  | other =>
      .error (.valueError ("Unsupported header value type: " ++ pyTypeName other))

/-- Embedding of the HTTPRequest state (server.py lines 24 to 47) restricted
to the fields the verified properties touch: the parsed path (set by on_url),
the normalized header mapping, the body bytes (nullable until received), the
finish timestamp (null until finished) and whether the transport was closed.
Timestamps are abstract Nat ticks. -/
structure HTTPRequestM where
  path : String
  headers : List (String × String)
  body : Option (List Nat)
  finishTime : Option Nat
  transportClosed : Bool

/-- HTTPRequest.finished (server.py lines 68 to 70): derived from finish
timestamp presence. -/
def HTTPRequestM.finished (r : HTTPRequestM) : Bool :=
  r.finishTime.isSome

/-- HTTPRequest.finish (server.py lines 61 to 66): raises RuntimeError when
already finished, otherwise records the finish timestamp (time.time modelled
as the now argument) and closes the transport. -/
def requestFinish (now : Nat) (r : HTTPRequestM) : Except PyExc HTTPRequestM :=
  if r.finished then .error (.runtimeError "Request is already finished")
  else .ok { r with finishTime := some now, transportClosed := true }

/-- HTTPServerProtocol.on_body (server.py lines 177 to 178): the tokenizer
body callback assigns the delivered bytes to request.body. -/
def on_body (value : List Nat) (r : HTTPRequestM) : HTTPRequestM :=
  { r with body := some value }

/-! Route module: src/troika/http/route.py and the route compilation of
src/troika/http/application.py -/

/-- Result object of a successful re.Pattern.match call, restricted to the
accessors the source uses: group() is the full matched text (group 0),
groups() is the tuple of captured positional groups, groupdict() the mapping
of named groups. -/
structure ReMatch where
  group0 : String
  groups : List String
  groupdict : List (String × String)

/-- Embedding of Route (route.py lines 14 to 48).  The re module is external
to the repository, so the compiled pattern is embedded as the matcher
function of the route; concrete routes used in theorems carry hand-compiled
matchers whose doc comments name the regex they implement.  The handler
class is an opaque identifier. -/
structure Route where
  pattern : String
  matcher : String → Option ReMatch
  handler : Nat
  kwargs : List (String × String)
  name : Option String
  suppress_logging : Bool

/-- Pattern anchoring of Route.init (route.py lines 39 to 41): a dollar sign
is appended when the author omitted it. -/
def anchorPattern (p : String) : String :=
  if p.endsWith "$" then p else p ++ "$"

/-- Embedding of RouteMatch (route.py lines 60 to 68).  The args field has
type String because the source stores result.group() there, which is the
full matched text, a str at runtime (despite the List annotation of the
source). -/
structure RouteMatch where
  handler : Nat
  name : Option String
  pattern : String
  suppress_logging : Bool
  init_kwargs : List (String × String)
  args : String
  kwargs : List (String × String)

/-- Embedding of the module-level match function (route.py lines 75 to 93):
iterate over the routes and return a RouteMatch built from the first route
whose pattern matches request.path, carrying result.group() as args and
result.groupdict() as kwargs; return no value when no route matches. -/
def route_match (routes : List Route) (request : HTTPRequestM) : Option RouteMatch :=
  match routes with
  | [] => Option.none
  | route :: rest =>
      match route.matcher request.path with
      | some result =>
          some { handler := route.handler
                 name := route.name
                 pattern := route.pattern
                 suppress_logging := route.suppress_logging
                 init_kwargs := route.kwargs
                 args := result.group0
                 kwargs := result.groupdict }
      | Option.none => route_match rest request

/-- Hand-compiled matcher for the catch-all regex of
Application.compile_routes (application.py line 73), pattern slash dot star
dollar, as matched by re.match: anchored at the start, the literal slash
must be the first character, dot star greedily takes characters other than
newline, and dollar matches at the end of the string or just before a single
trailing newline. -/
def catchAllMatch (s : String) : Option ReMatch :=
  match s.data with
  | [] => Option.none
  | c :: rest =>
      if c = '/' then
        if rest.contains '\n' = false then
          some { group0 := s, groups := [], groupdict := [] }
        else if rest.getLast? = some '\n' ∧ rest.dropLast.contains '\n' = false then
          some { group0 := String.mk (c :: rest.dropLast), groups := [], groupdict := [] }
        else Option.none
      else Option.none

/-- The synthetic trailing route appended by Application.compile_routes
(application.py lines 71 to 77) with the default settings: pattern slash dot
star dollar, the DefaultHandler class (opaque id 0), empty kwargs, name
default, logging not suppressed. -/
def defaultRoute : Route :=
  { pattern := "/.*$"
    matcher := catchAllMatch
    handler := 0
    kwargs := []
    name := some "default"
    suppress_logging := false }

/-- Application.compile_routes (application.py lines 64 to 80): the author
routes in registration order followed by the synthetic catch-all route. -/
def compile_routes (authors : List Route) : List Route :=
  authors ++ [defaultRoute]

/-- Python iteration over a str yields its characters as one-character
strings; this is what the star-splat of RequestHandler.execute_ does to the
str stored in RouteMatch.args (handlers.py line 297). -/
def splatStr (s : String) : List String :=
  s.data.map (fun c => String.mk [c])

/-- Hand-compiled matcher for the author route regex slash items slash,
capture group of one or more ASCII digits, dollar (pattern
"/items/([0-9]+)$").  Exact for inputs without a newline, which is the only
kind the theorems feed it. -/
def itemsMatcher (s : String) : Option ReMatch :=
  match s.data with
  | '/' :: 'i' :: 't' :: 'e' :: 'm' :: 's' :: '/' :: rest =>
      if rest ≠ [] ∧ rest.all Char.isDigit then
        some { group0 := s, groups := [String.mk rest], groupdict := [] }
      else Option.none
  | _ => Option.none

/-- The author route used by the route-capture theorems: pattern
"/items/([0-9]+)$" bound to an opaque handler. -/
def itemsRoute : Route :=
  { pattern := anchorPattern "/items/([0-9]+)"
    matcher := itemsMatcher
    handler := 1
    kwargs := []
    name := Option.none
    suppress_logging := false }

/-! Escape module: src/troika/http/escape.py -/

/-- Byte decoding used by escape.to_str.  Modelled as the latin-1 byte to
code point map, which is exact for latin-1 and for the ASCII range of every
codec the defaults name; the branch is unreachable from Text.to_bytes
because the call there omits the required encoding argument. -/
def decodeBytesM (_encoding : String) (bs : List Nat) : String :=
  latin1Decode bs

/-- Embedding of escape.to_str (escape.py lines 4 to 12): value.decode of a
bytes value; any other embedded value has no decode attribute and raises
AttributeError, as in CPython. -/
def to_str (value : PyValue) (encoding : String) : Except PyExc PyValue :=
  match value with
  | .bytes bs => .ok (.str (decodeBytesM encoding bs))
  | other =>
      .error (.attributeError (pyTypeName other ++ " object has no attribute decode"))

mutual

/-- Body of escape.recursive_to_str (escape.py lines 15 to 35) once both
arguments are supplied: dict keys go through to_str and dict values recurse,
list and tuple elements recurse (both are the list constructor here), bytes
go through to_str, anything else passes through. -/
def recursiveToStrBody (enc : String) : PyValue → Except PyExc PyValue
  | .dict kvs => do
      let kvs2 ← recursiveToStrPairs enc kvs
      .ok (.dict kvs2)
  | .list xs => do
      let xs2 ← recursiveToStrList enc xs
      .ok (.list xs2)
  | .bytes bs => to_str (.bytes bs) enc
  | other => .ok other

/-- Elementwise recursion of recursive_to_str over a list value. -/
def recursiveToStrList (enc : String) : List PyValue → Except PyExc (List PyValue)
  | [] => .ok []
  | x :: xs => do
      let x2 ← recursiveToStrBody enc x
      let xs2 ← recursiveToStrList enc xs
      .ok (x2 :: xs2)

/-- Pairwise recursion of recursive_to_str over a dict value: the key goes
through to_str, the value recurses. -/
def recursiveToStrPairs (enc : String) :
    List (PyValue × PyValue) → Except PyExc (List (PyValue × PyValue))
  | [] => .ok []
  | (k, v) :: rest => do
      let k2 ← to_str k enc
      let v2 ← recursiveToStrBody enc v
      let rest2 ← recursiveToStrPairs enc rest
      .ok ((k2, v2) :: rest2)

end

/-- Embedding of a call to escape.recursive_to_str(value, encoding), whose
encoding parameter has no default (escape.py line 15).  A call site that
omits the argument, such as Text.to_bytes (transcoders.py line 147), raises
TypeError at call time in CPython before the body runs; the omitted argument
is embedded as the Option.none case.  The CPython message quotes the word
encoding; the embedding leaves it unquoted. -/
def recursive_to_str (value : PyValue) (encoding? : Option String) :
    Except PyExc PyValue :=
  match encoding? with
  | Option.none =>
      .error (.typeError
        "recursive_to_str() missing 1 required positional argument: encoding")
  | some enc => recursiveToStrBody enc value

/-! Transcoders module: src/troika/http/transcoders.py -/

mutual

/-- Embedding of the module-level normalize (transcoders.py lines 384 to
412): None and the packable scalars pass through, bytes and str pass
through, sequences and sets normalize elementwise to lists, mappings
normalize value-wise keeping keys.  The uuid, bytearray, memoryview,
isoformat and float branches of the source are outside the embedded value
domain, and the trailing TypeError is unreachable over it. -/
def normalize : PyValue → PyValue
  | .none => .none
  | .bool b => .bool b
  | .int n => .int n
  | .bytes bs => .bytes bs
  | .str s => .str s
  | .list xs => .list (normalizeList xs)
  | .dict kvs => .dict (normalizePairs kvs)

/-- Elementwise normalize over a sequence value. -/
def normalizeList : List PyValue → List PyValue
  | [] => []
  | x :: xs => normalize x :: normalizeList xs

/-- Value-wise normalize over a mapping value, keys preserved. -/
def normalizePairs : List (PyValue × PyValue) → List (PyValue × PyValue)
  | [] => []
  | (k, v) :: rest => (k, normalize v) :: normalizePairs rest

end

/-- Lowercase hexadecimal digit, as in the unicode escapes of json.dumps. -/
def hexDigitL (n : Nat) : Char :=
  "0123456789abcdef".data.getD (n % 16) '0'

/-- Four lowercase hexadecimal digits. -/
def hex4 (n : Nat) : String :=
  String.mk [hexDigitL ((n >>> 12) &&& 15), hexDigitL ((n >>> 8) &&& 15),
             hexDigitL ((n >>> 4) &&& 15), hexDigitL (n &&& 15)]

/-- Uppercase hexadecimal digit, as in percent escapes of urllib quoting. -/
def hexDigitU (n : Nat) : Char :=
  "0123456789ABCDEF".data.getD (n % 16) '0'

/-- JSON string escaping of one character, as json.dumps performs with its
default ensure_ascii: quote and backslash escaped, the named control
escapes, unicode escapes for other controls and for every character outside
printable ASCII, with surrogate pairs beyond the basic plane. -/
def jsonEscapeChar (c : Char) : String :=
  let n := c.toNat
  if n = 34 then "\\\""
  else if n = 92 then "\\\\"
  else if n = 10 then "\\n"
  else if n = 13 then "\\r"
  else if n = 9 then "\\t"
  else if n = 8 then "\\b"
  else if n = 12 then "\\f"
  else if n < 32 then "\\u" ++ hex4 n
  else if n < 127 then String.mk [c]
  else if n < 0x10000 then "\\u" ++ hex4 n
  else
    let m := n - 0x10000
    "\\u" ++ hex4 (0xD800 + (m >>> 10)) ++ "\\u" ++ hex4 (0xDC00 + (m &&& 0x3FF))

/-- JSON string literal serialization of json.dumps. -/
def jsonQuote (s : String) : String :=
  "\"" ++ s.data.foldr (fun c acc => jsonEscapeChar c ++ acc) "" ++ "\""

/-- Base64 alphabet character. -/
def b64Char (n : Nat) : Char :=
  "ABCDEFGHIJKLMNOPQRSTUVWXYZabcdefghijklmnopqrstuvwxyz0123456789+/".data.getD n '='

/-- Standard base64 of a byte list, as base64.b64encode produces, used by
JSON.dump_object for bytes-like values (transcoders.py lines 238 to 239). -/
def b64encode : List Nat → String
  | [] => ""
  | [a] =>
      String.mk [b64Char (a >>> 2), b64Char ((a &&& 3) <<< 4), '=', '=']
  | [a, b] =>
      String.mk [b64Char (a >>> 2), b64Char (((a &&& 3) <<< 4) ||| (b >>> 4)),
                 b64Char ((b &&& 15) <<< 2), '=']
  | a :: b :: c :: rest =>
      String.mk [b64Char (a >>> 2), b64Char (((a &&& 3) <<< 4) ||| (b >>> 4)),
                 b64Char (((b &&& 15) <<< 2) ||| (c >>> 6)), b64Char (c &&& 63)]
        ++ b64encode rest

/-- Serialization of a dict key by json.dumps: str keys directly, int, bool
and None keys coerced to their string forms, anything else a TypeError. -/
def jsonKeyString : PyValue → Except PyExc String
  | .str s => .ok (jsonQuote s)
  | .int n => .ok (jsonQuote (toString n))
  | .bool b => .ok (jsonQuote (if b then "true" else "false"))
  | .none => .ok (jsonQuote "null")
  | other =>
      .error (.typeError
        ("keys must be str, int, float, bool or None, not " ++ pyTypeName other))

mutual

/-- Embedding of json.dumps with the separators of JSON.init (transcoders.py
lines 193 to 196), comma and colon with no spaces, and JSON.dump_object as
the default hook, which base64-encodes bytes-like values. -/
def jsonDumps : PyValue → Except PyExc String
  | .none => .ok "null"
  | .bool b => .ok (if b then "true" else "false")
  | .int n => .ok (toString n)
  | .str s => .ok (jsonQuote s)
  | .bytes bs => .ok (jsonQuote (b64encode bs))
  | .list xs => do
      let parts ← jsonDumpsList xs
      .ok ("[" ++ String.intercalate "," parts ++ "]")
  | .dict kvs => do
      let parts ← jsonDumpsPairs kvs
      .ok ("\x7b" ++ String.intercalate "," parts ++ "\x7d")

/-- Elementwise json.dumps over an array. -/
def jsonDumpsList : List PyValue → Except PyExc (List String)
  | [] => .ok []
  | x :: xs => do
      let s ← jsonDumps x
      let rest ← jsonDumpsList xs
      .ok (s :: rest)

/-- Pairwise json.dumps over an object, key colon value. -/
def jsonDumpsPairs : List (PyValue × PyValue) → Except PyExc (List String)
  | [] => .ok []
  | (k, v) :: rest => do
      let ks ← jsonKeyString k
      let vs ← jsonDumps v
      let restS ← jsonDumpsPairs rest
      .ok ((ks ++ ":" ++ vs) :: restS)

end

/-- JSON.marshall (transcoders.py lines 199 to 207): json.dumps of the
normalized value with the configured separators and default hook. -/
def JSON_marshall (v : PyValue) : Except PyExc String :=
  jsonDumps (normalize v)

/-- Percent-quoting of one character by urllib quote_plus: alphanumerics
and underscore, dot, hyphen, tilde pass, space becomes plus, anything else
percent-escapes each UTF-8 byte with uppercase hex. -/
def quotePlusChar (c : Char) : String :=
  if c.isAlphanum ∨ c = '_' ∨ c = '.' ∨ c = '-' ∨ c = '~' then String.mk [c]
  else if c = ' ' then "+"
  else (utf8EncodeChar c).foldr
    (fun b acc => "%" ++ String.mk [hexDigitU ((b >>> 4) &&& 15), hexDigitU (b &&& 15)] ++ acc) ""

/-- urllib quote_plus over a string. -/
def quotePlus (s : String) : String :=
  s.data.foldr (fun c acc => quotePlusChar c ++ acc) ""

/-- String coercion str(x) of the flat values urlencode feeds quote_plus,
restricted to the embedded scalar shapes (str, int, bool); other shapes,
whose str form is a Python repr, are outside the embedded domain. -/
def pyStrScalar : PyValue → Except PyExc String
  | .str s => .ok s
  | .int n => .ok (toString n)
  | .bool b => .ok (if b then "True" else "False")
  | other => .error (.typeError ("str form of " ++ pyTypeName other ++ " not embedded"))

/-- Pairwise urlencode over a mapping. -/
def urlencodePairs : List (PyValue × PyValue) → Except PyExc (List String)
  | [] => .ok []
  | (k, v) :: rest => do
      let ks ← pyStrScalar k
      let vs ← pyStrScalar v
      let restS ← urlencodePairs rest
      .ok ((quotePlus ks ++ "=" ++ quotePlus vs) :: restS)

/-- Embedding of urllib.parse.urlencode on a mapping, as
FormURLEncoded.marshall uses it (transcoders.py line 368). -/
def urlencodeM : PyValue → Except PyExc String
  | .dict kvs => do
      let parts ← urlencodePairs kvs
      .ok (String.intercalate "&" parts)
  | _ => .error (.typeError "not a valid non-string sequence or mapping object")

/-- The registered transcoder variants of transcoders.default().  textT
carries the mime_type attribute of the Text instance.  Binary keeps the
base-class to_bytes. -/
inductive TranscoderM where
  | textT (instanceMime : String)
  | binaryT
  | formT
  | jsonT

/-- The mime_type attribute of each transcoder instance. -/
def transcoderMime : TranscoderM → String
  | .textT m => m
  | .binaryT => "application/octet-stream"
  | .formT => "application/x-www-form-urlencoded"
  | .jsonT => "application/json"

/-- The marshall member bound at construction: JSON.marshall for JSON,
FormURLEncoded.marshall for the form transcoder.  A plain Text instance
passes no marshall, so Transcoder.init rebinds marshall to to_bytes itself
(transcoders.py line 59) and a call never terminates; CPython surfaces that
as RecursionError, embedded as the recursionError outcome.  Binary is the
same shape. -/
def marshallM : TranscoderM → PyValue → Except PyExc String
  | .jsonT, v => JSON_marshall v
  | .formT, v => urlencodeM (normalize v)
  | .textT _, _ => .error .recursionError
  | .binaryT, _ => .error .recursionError

/-- The encode step of Text.to_bytes, dumped.encode(selected).  The only
encoding every default transcoder passes is UTF-8, so the embedding encodes
UTF-8 regardless of the selected name. -/
def strEncode (_encoding : String) (s : String) : List Nat :=
  utf8Encode s

/-- Embedding of to_bytes per variant.  The Text family (Text, JSON,
FormURLEncoded) runs Text.to_bytes (transcoders.py lines 133 to 148):
compute the selected encoding and the mime string with its charset
parameter, then call escape.recursive_to_str with the encoding argument
omitted, which raises TypeError before any marshalling happens.  Binary
runs the base Transcoder.to_bytes whose default marshall is to_bytes
itself; the self-call never terminates and is embedded as RecursionError. -/
def to_bytesM (t : TranscoderM) (v : PyValue) (encoding? : Option String) :
    Except PyExc (String × List Nat) :=
  match t with
  | .binaryT => .error .recursionError
  | t => do
      let selected := encoding?.getD "UTF-8"
      let mime := transcoderMime t ++ "; charset=\"" ++ selected ++ "\""
      let v2 ← recursive_to_str v Option.none
      let s ← marshallM t v2
      .ok (mime, strEncode selected s)

/-- Embedding of transcoders.default() (transcoders.py lines 24 to 43) in an
environment where umsgpack and yaml are unavailable, in which case the
registry silently omits them.  Note that both Text rows construct Text()
without a mime_type, so the instance behind the text/html key carries the
Text default mime_type text/plain. -/
def defaultTranscoders : List (String × TranscoderM) :=
  [("text/html", .textT "text/plain"),
   ("text/plain", .textT "text/plain"),
   ("application/octet-stream", .binaryT),
   ("application/x-www-form-urlencoded", .formT),
   ("application/json", .jsonT)]

/-- Dictionary get over the direct-lookup half of the registry,
application.transcoders[1].get(content_type). -/
def registryLookup (ct : String) : Option TranscoderM :=
  (defaultTranscoders.find? (fun p => p.1 == ct)).map (fun p => p.2)

/-! Handlers module: src/troika/http/handlers.py -/

/-- Response buffer state (HTTPResponse, server.py lines 80 to 128)
restricted to the fields the verified properties touch: header mapping,
append-only body bytes, headers-written flag. -/
structure RespState where
  headers : List (String × String)
  body : List Nat
  headersWritten : Bool

/-- Python dict assignment into the response header mapping: update in
place when the key exists, append otherwise. -/
def setHeader (hs : List (String × String)) (k v : String) : List (String × String) :=
  if hs.any (fun p => p.1 == k) then
    hs.map (fun p => if p.1 == k then (k, v) else p)
  else hs ++ [(k, v)]

/-- Membership test of a key in the header mapping. -/
def headerHas (hs : List (String × String)) (k : String) : Bool :=
  hs.any (fun p => p.1 == k)

/-- Dictionary lookup of a header key, dict.get with no default. -/
def headerLookup (hs : List (String × String)) (k : String) : Option String :=
  (hs.find? (fun p => p.1 == k)).map (fun p => p.2)

/-- Dictionary lookup of a header key with a default, dict.get(k, d). -/
def headerGet (hs : List (String × String)) (k d : String) : String :=
  (headerLookup hs k).getD d

/-- Embedding of RequestHandler.write (handlers.py lines 207 to 221).  A str
chunk is UTF-8 encoded and appended; a dict chunk goes through the response
transcoder selected for the negotiated response content type, whose returned
mime string is stored into the Content-Type header before the bytes are
appended; a bytes chunk is appended; anything else raises ValueError.  The
responseContentType argument is the memoized result of
get_response_content_type for this request, and the transcoder is fetched
from the registry exactly as get_response_transcoder does (handlers.py lines
318 to 327); a lookup miss leaves that helper returning None, and the
to_bytes attribute access on None raises AttributeError. -/
def write (responseContentType : String) (resp : RespState) (chunk : PyValue) :
    Except PyExc RespState :=
  match chunk with
  | .str s => .ok { resp with body := resp.body ++ utf8Encode s }
  | .dict kvs =>
      match registryLookup responseContentType with
      | Option.none =>
          .error (.attributeError "NoneType object has no attribute to_bytes")
      | some t =>
          match to_bytesM t (.dict kvs) Option.none with
          | .error e => .error e
          | .ok (ctype, bs) =>
              .ok { resp with headers := setHeader resp.headers "Content-Type" ctype,
                              body := resp.body ++ bs }
  | .bytes bs => .ok { resp with body := resp.body ++ bs }
  | _ => .error (.valueError "write() only accepts dict, str, or bytes objects")

/-- Semantics of the functools.lru_cache(1) decorator on an instance method
of no further arguments, as used on get_response_content_type (handlers.py
line 299): a single cache slot keyed by the bound self argument, shared
through the class function; a hit returns the stored result without calling
the body, a miss calls the body and replaces the slot.  The third component
counts how many times the body ran during the call. -/
def lru_cache_one (f : Nat → String) (self : Nat) (cache : Option (Nat × String)) :
    String × Option (Nat × String) × Nat :=
  match cache with
  | some (k, v) =>
      if self = k then (v, some (k, v), 0)
      else (f self, some (self, f self), 1)
  | Option.none => (f self, some (self, f self), 1)

/-- Embedding of the memoized RequestHandler.get_response_content_type
(handlers.py lines 299 to 316).  The uncached body parses the Accept header
and selects against the registry through the external ietfparse library; it
is abstracted as the negotiate function of the handler, while the caching
behaviour under verification is the lru_cache(1) wrapper. -/
def get_response_content_type (negotiate : Nat → String) (self : Nat)
    (cache : Option (Nat × String)) : String × Option (Nat × String) × Nat :=
  lru_cache_one negotiate self cache

/-- Parsed mime descriptor of ietfparse, type and subtype. -/
structure ContentTypeP where
  ctype : String
  subtype : String

/-- Single-character str.split: split the character list at every occurrence
of the separator, exactly as the Python split method with a one-character
separator. -/
def listSplitOnChar (sep : Char) : List Char → List (List Char)
  | [] => [[]]
  | c :: rest =>
      let r := listSplitOnChar sep rest
      if c = sep then [] :: r
      else
        match r with
        | h :: t => (c :: h) :: t
        | [] => [[c]]

/-- str.strip with no argument: drop ASCII whitespace from both ends. -/
def listTrim (l : List Char) : List Char :=
  ((l.dropWhile Char.isWhitespace).reverse.dropWhile Char.isWhitespace).reverse

/-- str.lower over the embedded character list. -/
def strLower (l : List Char) : String :=
  String.mk (l.map Char.toLower)

/-- Embedding of ietfparse.headers.parse_content_type at the call shape of
get_body_arguments: split off parameters at the first semicolon, then split
the remainder on the slash into exactly a type and a subtype, trimmed and
lowercased; any other shape raises the tuple-unpacking ValueError of the
library, whose message does not mention the offending value. -/
def parse_content_type (s : String) : Except PyExc ContentTypeP :=
  let first := (listSplitOnChar ';' s.data).headD []
  match listSplitOnChar '/' first with
  | [t, st] => .ok { ctype := strLower (listTrim t), subtype := strLower (listTrim st) }
  | [_] => .error (.valueError "not enough values to unpack (expected 2, got 1)")
  | _ => .error (.valueError "too many values to unpack (expected 2)")

/-- The negotiation half of the registry, application.transcoders[0]: the
parsed mime descriptors of the registered rows of transcoders.default(), in
registration order, umsgpack and yaml unavailable. -/
def registeredParsed : List ContentTypeP :=
  [{ ctype := "text", subtype := "html" },
   { ctype := "text", subtype := "plain" },
   { ctype := "application", subtype := "octet-stream" },
   { ctype := "application", subtype := "x-www-form-urlencoded" },
   { ctype := "application", subtype := "json" }]

/-- Embedding of ietfparse.algorithms.select_content_type at the call shape
of get_body_arguments, where the requested side is a single parsed
Content-Type with concrete type and subtype (no wildcards): the selection
succeeds exactly on a registered row with equal type and subtype and raises
NoMatch otherwise. -/
def select_content_type_exact (req : ContentTypeP) (avail : List ContentTypeP) :
    Except PyExc ContentTypeP :=
  match avail.find? (fun a => a.ctype == req.ctype && a.subtype == req.subtype) with
  | some a => .ok a
  | Option.none => .error .noMatch

/-- Embedding of RequestHandler.get_body_arguments (handlers.py lines 101 to
125).  A missing or empty body yields no value.  Otherwise the Content-Type
header (empty string when absent) is parsed and selected against the
registry; NoMatch becomes the ValueError naming the offending header value;
on success the transcoder behind the joined type/subtype key decodes the
body.  The per-key from_bytes decoders delegate to external codecs and are
passed in as fromBytes; the guard of the source that would return None for a
falsy parse result is dead code, since parse_content_type never returns a
falsy value.  The lru_cache(1) memoization of the source method is the
mechanism verified separately on get_response_content_type. -/
def get_body_arguments (fromBytes : String → List Nat → Except PyExc PyValue)
    (req : HTTPRequestM) : Except PyExc (Option PyValue) :=
  match req.body with
  | Option.none => .ok Option.none
  | some b =>
      if b = [] then .ok Option.none
      else
        match parse_content_type (headerGet req.headers "Content-Type" "") with
        | .error e => .error e
        | .ok parsed =>
            match select_content_type_exact parsed registeredParsed with
            | .error .noMatch =>
                .error (.valueError
                  ("Cant transcode a Content-Type of "
                    ++ headerGet req.headers "Content-Type" ""))
            | .error e => .error e
            | .ok selected =>
                let key := selected.ctype ++ "/" ++ selected.subtype
                match fromBytes key b with
                | .error e => .error e
                | .ok v => .ok (some v)

/-! Request handler lifecycle: RequestHandler.execute and its error
handling (handlers.py lines 257 to 338). -/

/-- The HTML error template HTML_ERROR_TEMPLATE (handlers.py lines 18 to
27).  Its placeholders are status_code, reason, message and traceback. -/
def htmlErrorTemplate : String :=
  "<html>\n  <head><title>\x7bstatus_code\x7d: \x7breason\x7d</title></head>\n  <body>\n    <h1>\x7bstatus_code\x7d: \x7breason\x7d</h1>\n    <p>\x7bmessage\x7d</p>\n    <pre>\x7btraceback\x7d</pre>\n  </body>\n</html>\n"

/-- Scanner state machine of str.format over plain named placeholders: copy
text until an opening brace (code point 123), collect the field name until
the closing brace (code point 125), substitute from the mapping or raise
KeyError on a missing name, ValueError on an unterminated field.  The
template in use contains no brace escapes or format specs. -/
def pyFormatGo (vals : List (String × String)) :
    List Char → Option (List Char) → Except PyExc String
  | [], Option.none => .ok ""
  | [], some _ => .error (.valueError "Single brace encountered in format string")
  | c :: rest, Option.none =>
      if c.toNat = 123 then pyFormatGo vals rest (some [])
      else do
        let t ← pyFormatGo vals rest Option.none
        .ok (String.mk [c] ++ t)
  | c :: rest, some acc =>
      if c.toNat = 125 then
        match (vals.find? (fun p => p.1 == String.mk acc.reverse)).map (fun p => p.2) with
        | some v => do
            let t ← pyFormatGo vals rest Option.none
            .ok (v ++ t)
        | Option.none => .error (.keyError (String.mk acc.reverse))
      else pyFormatGo vals rest (some (c :: acc))

/-- str.format(**values) over named placeholders. -/
def pyFormat (template : String) (vals : List (String × String)) :
    Except PyExc String :=
  pyFormatGo vals template.data Option.none

/-- The phrase of http.HTTPStatus for the standard codes this development
touches. -/
def statusPhrase : Nat → String
  | 301 => "Moved Permanently"
  | 302 => "Found"
  | 404 => "Not Found"
  | 405 => "Method Not Allowed"
  | 500 => "Internal Server Error"
  | 503 => "Service Unavailable"
  | _ => ""

/-- The description of http.HTTPStatus for the standard codes this
development touches. -/
def statusDescription : Nat → String
  | 404 => "Nothing matches the given URI"
  | 405 => "Specified method is invalid for this resource"
  | 500 => "Server got itself in trouble"
  | 503 => "The server cannot process the request due to a high load"
  | _ => ""

/-- Which classification branch of handle_request_exception ran: the Finish
control signal, a structured HTTPError, or the catch-all that renders a
generic 500. -/
inductive ErrClass where
  | finishedSignal
  | httpErrorE
  | internalError

/-- Per-request mutable state of one lifecycle pass: the request, its
response buffer, whether send_response completed, and (proof
instrumentation, not source state) which classification branch ran. -/
structure LifeState where
  req : HTTPRequestM
  resp : RespState
  responseSentB : Bool
  handledAs : Option ErrClass

/-- Outcome description of one concrete RequestHandler subclass: what its
initialize step does (None is a normal return), what its prepare step does,
and its verb method for the request method, where Option.none embeds getattr
returning None (no such method) and some embeds the method with its outcome.
The handler bodies are user code outside the repository; only their outcome
(normal return or raised exception) feeds the lifecycle under
verification. -/
structure HandlerSpec where
  initOutcome : Option PyExc
  prepareOutcome : Option PyExc
  verb : Option (Option PyExc)

/-- RequestHandler.finish (handlers.py lines 89 to 95): RuntimeError when
the request is already finished, otherwise write the chunk when it is
truthy.  Returns the updated state or the state at the point of raising
together with the raised exception. -/
def handler_finish (responseContentType : String) (st : LifeState)
    (chunk : Option PyValue) : LifeState × Option PyExc :=
  if st.req.finished then
    (st, some (.runtimeError "Request is already finished"))
  else
    match chunk with
    | Option.none => (st, Option.none)
    | some c =>
        if pyTruthy c then
          match write responseContentType st.resp c with
          | .ok resp2 => ({ st with resp := resp2 }, Option.none)
          | .error e => (st, some e)
        else (st, Option.none)

/-- RequestHandler.write_error (handlers.py lines 223 to 255) with no
keyword arguments and no exc_info traceback, as the lifecycle calls it.
Builds the payload of status code, exception class name, phrase and
description; consults the memoized negotiated response content type; for a
text/html negotiation stores the header, joins the empty stack into the
traceback slot and finishes with the formatted HTML template; otherwise
stores the empty stack list in the payload and finishes with the payload
dict.  The exceptionName argument is the class name interpolated from the
error. -/
def write_error (responseContentType : String) (st : LifeState)
    (statusCode : Nat) (exceptionName : String) : LifeState × Option PyExc :=
  let values : List (String × String) :=
    [("status_code", toString statusCode),
     ("exception", exceptionName),
     ("phrase", statusPhrase statusCode),
     ("description", statusDescription statusCode)]
  if responseContentType.startsWith "text/html" then
    let st1 := { st with resp :=
      { st.resp with headers := setHeader st.resp.headers "Content-Type" responseContentType } }
    match pyFormat htmlErrorTemplate (values ++ [("traceback", "")]) with
    | .ok page => handler_finish responseContentType st1 (some (.str page))
    | .error e => (st1, some e)
  else
    let payload : PyValue := .dict
      [(.str "status_code", .int statusCode),
       (.str "exception", .str exceptionName),
       (.str "phrase", .str (statusPhrase statusCode)),
       (.str "description", .str (statusDescription statusCode)),
       (.str "traceback", .list [])]
    handler_finish responseContentType st (some payload)

/-- RequestHandler.execute_ (handlers.py lines 283 to 297): run prepare,
then, when the request is not finished, fetch the verb method; a missing
method raises HTTPError 405, otherwise the method runs with the stored
route arguments.  The handler bodies are abstracted to their outcomes. -/
def hExecute (spec : HandlerSpec) (st : LifeState) : LifeState × Option PyExc :=
  match spec.prepareOutcome with
  | some e => (st, some e)
  | Option.none =>
      if st.req.finished then (st, Option.none)
      else
        match spec.verb with
        | Option.none => (st, some (.httpError 405))
        | some outcome =>
            match outcome with
            | some e => (st, some e)
            | Option.none => (st, Option.none)

/-- RequestHandler.handle_request_exception (handlers.py lines 329 to 338):
a Finish signal finishes with its payload when the request is not yet
finished; an HTTPError renders through write_error; anything else logs and
renders a generic HTTPError 500 through write_error. -/
def handle_request_exception (responseContentType : String) (st : LifeState)
    (e : PyExc) : LifeState × Option PyExc :=
  match e with
  | .finishSignal payload =>
      let st1 := { st with handledAs := some ErrClass.finishedSignal }
      if st1.req.finished then (st1, Option.none)
      else handler_finish responseContentType st1 payload
  | .httpError code =>
      write_error responseContentType { st with handledAs := some ErrClass.httpErrorE }
        code "HTTPError"
  | _ =>
      write_error responseContentType { st with handledAs := some ErrClass.internalError }
        500 "HTTPError"

/-- HTTPRequest.send_response (server.py lines 72 to 77): inject
Content-Length from the accumulated body length when absent, write the
status line and headers (RuntimeError when already written), write the body,
then finish the request, closing the connection. -/
def sendResponse (now : Nat) (st : LifeState) : LifeState × Option PyExc :=
  let resp1 :=
    if headerHas st.resp.headers "Content-Length" then st.resp
    else { st.resp with headers :=
      st.resp.headers ++ [("Content-Length", toString st.resp.body.length)] }
  if resp1.headersWritten then
    ({ st with resp := resp1 }, some (.runtimeError "Headers already written"))
  else
    let resp2 := { resp1 with headersWritten := true }
    match requestFinish now st.req with
    | .error e => ({ st with resp := resp2 }, some e)
    | .ok req2 =>
        ({ st with req := req2, resp := resp2, responseSentB := true }, Option.none)

/-- RequestHandler.execute (handlers.py lines 257 to 273): initialize runs
before the try block, so an exception it raises propagates out of execute
uncaught; inside the try block execute_ runs and any exception it raises is
classified by handle_request_exception; afterwards send_response always
runs (the access-log record and the on_finished hook that follow do not
change request or response state and are not modelled).  An exception
raised by the classification itself, or by send_response, also propagates.
The responseContentType argument is the memoized negotiation result this
request would compute; now is the finish timestamp tick. -/
def execute (spec : HandlerSpec) (responseContentType : String) (now : Nat)
    (st : LifeState) : LifeState × Option PyExc :=
  match spec.initOutcome with
  | some e => (st, some e)
  | Option.none =>
      let step1 := hExecute spec st
      let step2 :=
        match step1.2 with
        | Option.none => (step1.1, Option.none)
        | some e => handle_request_exception responseContentType step1.1 e
      match step2.2 with
      | some e => (step2.1, some e)
      | Option.none => sendResponse now step2.1

/-- A fresh per-request state as the protocol builds it on message
completion: request unfinished, default response headers (Server and Date
carry wall-clock and configured strings whose values are immaterial here),
empty body, nothing sent. -/
def initialLifeState : LifeState :=
  { req := { path := "/", headers := [], body := Option.none,
             finishTime := Option.none, transportClosed := false }
    resp := { headers := [("Server", "troika-http/0.1.0"),
                          ("Content-Type", "text/html; charset=UTF-8"),
                          ("Date", "today")],
              body := [], headersWritten := false }
    responseSentB := false
    handledAs := Option.none }

/-! MessagePack integer encoding.  MessagePack.marshall (transcoders.py
lines 265 to 272) delegates to umsgpack.packb after normalizing; the
umsgpack library is external and its source is not under src/, so the
integer layer is modelled from the specification. -/

/-- Big-endian bytes of a natural number in a fixed width, the payload that
follows a width-selected MessagePack integer prefix. -/
def beBytes : Nat → Nat → List Nat
  | 0, _ => []
  | w + 1, n => beBytes w (n / 256) ++ [n % 256]

/-- Modelled from the spec: the integer encoding rules of the MessagePack
codec section, implemented by the external umsgpack.packb that
MessagePack.marshall calls, whose source is not under src/.  Non-negative
integers below 128 are a positive fixint; negative integers from -32 up are
a negative fixint 0xE0 or-ed with the low five bits; larger magnitudes take
the smallest sufficient width with prefixes 0xCC to 0xCF unsigned and 0xD0
to 0xD3 signed two's complement, payload big-endian; magnitudes beyond the
64-bit ranges are unsupported. -/
def packInt (n : Int) : Except PyExc (List Nat) :=
  if n < 0 then
    if -32 ≤ n then .ok [0xE0 ||| (n % 32).toNat]
    else if -128 ≤ n then .ok (0xD0 :: beBytes 1 (n % 256).toNat)
    else if -32768 ≤ n then .ok (0xD1 :: beBytes 2 (n % 65536).toNat)
    else if -2147483648 ≤ n then .ok (0xD2 :: beBytes 4 (n % 4294967296).toNat)
    else if -9223372036854775808 ≤ n then
      .ok (0xD3 :: beBytes 8 (n % 18446744073709551616).toNat)
    else .error (.typeError "huge signed int")
  else
    if n < 128 then .ok [n.toNat]
    else if n < 256 then .ok (0xCC :: beBytes 1 n.toNat)
    else if n < 65536 then .ok (0xCD :: beBytes 2 n.toNat)
    else if n < 4294967296 then .ok (0xCE :: beBytes 4 n.toNat)
    else if n < 18446744073709551616 then .ok (0xCF :: beBytes 8 n.toNat)
    else .error (.typeError "huge unsigned int")

/-- One-byte big-endian payload, unfolded. -/
theorem beBytes_one (x : Nat) : beBytes 1 x = [x % 256] := rfl

/-- Two-byte big-endian payload, unfolded. -/
theorem beBytes_two (x : Nat) : beBytes 2 x = [x / 256 % 256, x % 256] := rfl

/-- Four-byte big-endian payload, unfolded. -/
theorem beBytes_four (x : Nat) :
    beBytes 4 x = [x / 256 / 256 / 256 % 256, x / 256 / 256 % 256,
                   x / 256 % 256, x % 256] := rfl

/-- Eight-byte big-endian payload, unfolded. -/
theorem beBytes_eight (x : Nat) :
    beBytes 8 x = [x / 256 / 256 / 256 / 256 / 256 / 256 / 256 % 256,
                   x / 256 / 256 / 256 / 256 / 256 / 256 % 256,
                   x / 256 / 256 / 256 / 256 / 256 % 256,
                   x / 256 / 256 / 256 / 256 % 256,
                   x / 256 / 256 / 256 % 256,
                   x / 256 / 256 % 256,
                   x / 256 % 256, x % 256] := rfl

/-! Theorems for the verified claims. -/

/-- C1: the claim states that for a request whose negotiated response
content type is application/json, write of the mapping with key a and value
1 appends exactly the seven JSON bytes and sets the Content-Type header with
the UTF-8 charset parameter.  The code instead raises TypeError for every
dict chunk: Text.to_bytes (inherited by JSON) calls escape.recursive_to_str
without its required encoding argument, so nothing is appended and no header
is set.  The second conjunct shows that the marshalling step behind that
call would have produced exactly the claimed bytes, which is also what the
repository's own transcoder tests assert. -/
theorem write_json_dict_raises_type_error (resp : RespState) :
    write "application/json" resp (.dict [(.str "a", .int 1)]) =
      .error (.typeError
        "recursive_to_str() missing 1 required positional argument: encoding") ∧
    JSON_marshall (.dict [(.str "a", .int 1)]) = .ok "\x7b\"a\":1\x7d" :=
  ⟨rfl, rfl⟩

/-- C2: the claim states that every header value containing a raw control
character at any position is rejected.  The code anchors the check with
re.match, so only a value whose first character is a control character is
rejected: the value with a NUL byte in the middle passes through
normalization unchanged, while the same bytes with the NUL first raise the
unsafe-value error. -/
theorem header_value_control_char_not_rejected :
    normalize_header_value (.str "a\x00b") = .ok "a\x00b" ∧
    normalize_header_value (.str "\x00ab") =
      .error (.valueError "Unsafe header value: \x00ab") :=
  ⟨rfl, rfl⟩

/-- The request used by the route capture theorem, with the path slash items
slash 42. -/
def reqItems : HTTPRequestM :=
  { path := "/items/42", headers := [], body := Option.none,
    finishTime := Option.none, transportClosed := false }

/-- C5: the claim states that RouteMatch carries the captured positional
groups as the positional arguments.  The pattern captures the group 42, yet
the RouteMatch stores result.group(), the full matched text, in args, and
the star-splat of the dispatch call therefore invokes the verb method with
the nine one-character strings of the full path instead of the single
captured group; the named-group mapping is carried correctly. -/
theorem route_match_args_not_captured_groups :
    (itemsMatcher "/items/42").map ReMatch.groups = some ["42"] ∧
    (route_match [itemsRoute] reqItems).map RouteMatch.args = some "/items/42" ∧
    (route_match [itemsRoute] reqItems).map (fun rm => splatStr rm.args) =
      some ["/", "i", "t", "e", "m", "s", "/", "4", "2"] ∧
    (route_match [itemsRoute] reqItems).map (fun rm => rm.kwargs) = some [] ∧
    (["/", "i", "t", "e", "m", "s", "/", "4", "2"] : List String) ≠ ["42"] := by
  refine ⟨rfl, rfl, rfl, rfl, ?_⟩
  decide

/-- C7: finish may run at most once: on an unfinished request the first
finish call succeeds and records its timestamp, and a second finish call on
the result raises the RuntimeError that the request is already finished. -/
theorem finish_at_most_once (r : HTTPRequestM) (t1 t2 : Nat)
    (h : r.finishTime = Option.none) :
    ∃ r', requestFinish t1 r = .ok r' ∧ r'.finishTime = some t1 ∧
      requestFinish t2 r' = .error (.runtimeError "Request is already finished") := by
  refine ⟨{ r with finishTime := some t1, transportClosed := true }, ?_, rfl, ?_⟩
  · unfold requestFinish
    simp [HTTPRequestM.finished, h]
  · unfold requestFinish
    simp [HTTPRequestM.finished]

/-- C7 witness: the theorem applied to a fresh request with ticks 1 and 2. -/
theorem finish_at_most_once_witness :
    ({ path := "/", headers := [], body := Option.none, finishTime := Option.none,
       transportClosed := false } : HTTPRequestM).finishTime = Option.none ∧
    ∃ r', requestFinish 1
        { path := "/", headers := [], body := Option.none,
          finishTime := Option.none, transportClosed := false } = .ok r' ∧
      r'.finishTime = some 1 ∧
      requestFinish 2 r' = .error (.runtimeError "Request is already finished") :=
  ⟨rfl, finish_at_most_once _ 1 2 rfl⟩

/-- C8: resolving the response content type twice within the same request
returns the cached result of the first resolution: whatever the negotiation
body computes, the first call on an empty cache runs it once, and the second
call returns that stored value and runs the body zero times. -/
theorem response_content_type_memoized (negotiate : Nat → String) (self : Nat) :
    (get_response_content_type negotiate self Option.none).1 = negotiate self ∧
    (get_response_content_type negotiate self
        (get_response_content_type negotiate self Option.none).2.1).1 =
      (get_response_content_type negotiate self Option.none).1 ∧
    (get_response_content_type negotiate self
        (get_response_content_type negotiate self Option.none).2.1).2.2 = 0 := by
  refine ⟨rfl, ?_, ?_⟩ <;> simp [get_response_content_type, lru_cache_one]

/-- C10: each body callback assigns the delivered bytes, so after two
callbacks on the same request the stored body is exactly the bytes of the
last one, independent of what was stored before. -/
theorem on_body_replaces_stored_body (r : HTTPRequestM) (b1 b2 : List Nat) :
    (on_body b2 (on_body b1 r)).body = some b2 ∧
    on_body b2 (on_body b1 r) = on_body b2 r :=
  ⟨rfl, rfl⟩

/-- C4 counterexample: the claim states that a request with body bytes but
no Content-Type header yields no value from body decoding.  On such a
request the code instead feeds the empty default string to the content-type
parser, which raises the tuple-unpacking ValueError, a different outcome
than ok-none. -/
theorem body_without_content_type_raises :
    get_body_arguments (fun _ _ => .ok PyValue.none)
      { path := "/", headers := [], body := some [120],
        finishTime := Option.none, transportClosed := false } =
      .error (.valueError "not enough values to unpack (expected 2, got 1)") ∧
    (Except.error (PyExc.valueError "not enough values to unpack (expected 2, got 1)") ≠
      (Except.ok Option.none : Except PyExc (Option PyValue))) :=
  ⟨rfl, fun h => Except.noConfusion h⟩

/-- C4 amended: body decoding yields no value exactly when the body bytes
are absent or empty; when body bytes are present, a missing (or
unparseable) Content-Type raises the parsing ValueError, which does not
name the content type, and a parseable Content-Type that maps to no
registered transcoder raises the ValueError naming the offending content
type. -/
theorem body_decoding_amended
    (fromBytes : String → List Nat → Except PyExc PyValue) (req : HTTPRequestM) :
    ((req.body = Option.none ∨ req.body = some []) →
      get_body_arguments fromBytes req = .ok Option.none) ∧
    (∀ b, req.body = some b → b ≠ [] →
      headerLookup req.headers "Content-Type" = Option.none →
      get_body_arguments fromBytes req =
        .error (.valueError "not enough values to unpack (expected 2, got 1)")) ∧
    (∀ b, req.body = some b → b ≠ [] →
      headerLookup req.headers "Content-Type" = some "application/xml" →
      get_body_arguments fromBytes req =
        .error (.valueError "Cant transcode a Content-Type of application/xml")) := by
  refine ⟨?_, ?_, ?_⟩
  · rintro (h | h) <;> simp [get_body_arguments, h]
  · intro b hb hbne hct
    have hg : headerGet req.headers "Content-Type" "" = "" := by
      simp [headerGet, hct]
    simp only [get_body_arguments, hb, hg]
    rw [if_neg hbne]
    rfl
  · intro b hb hbne hct
    have hg : headerGet req.headers "Content-Type" "" = "application/xml" := by
      simp [headerGet, hct]
    simp only [get_body_arguments, hb, hg]
    rw [if_neg hbne]
    rfl

/-- C4 witness: the amended theorem applied at a request with an unmapped
xml content type and at a request with no body. -/
theorem body_decoding_amended_witness :
    get_body_arguments (fun _ _ => .ok PyValue.none)
      { path := "/", headers := [("Content-Type", "application/xml")],
        body := some [120], finishTime := Option.none, transportClosed := false } =
      .error (.valueError "Cant transcode a Content-Type of application/xml") ∧
    get_body_arguments (fun _ _ => .ok PyValue.none)
      { path := "/", headers := [], body := Option.none,
        finishTime := Option.none, transportClosed := false } = .ok Option.none :=
  ⟨(body_decoding_amended _ _).2.2 [120] rfl (by decide) rfl,
   (body_decoding_amended _ _).1 (Or.inl rfl)⟩

/-- C6 counterexample: the claim states that matching against the compiled
route table returns a RouteMatch for every request path.  The catch-all
pattern starts with a literal slash, so the path star, which the parser
delivers for OPTIONS requests in asterisk form, matches no route and
match() returns no value. -/
theorem star_path_matches_no_route :
    route_match (compile_routes [])
      { path := "*", headers := [], body := Option.none,
        finishTime := Option.none, transportClosed := false } = Option.none :=
  rfl

/-- The catch-all matcher accepts every path that starts with a slash and
has no newline after it. -/
theorem catchAll_matches_slash (s : String)
    (h1 : s.data.head? = some '/') (h2 : (s.data.drop 1).contains '\n' = false) :
    (catchAllMatch s).isSome = true := by
  cases hd : s.data with
  | nil => rw [hd] at h1; cases h1
  | cons c rest =>
      rw [hd] at h1 h2
      have hc : c = '/' := by simpa using h1
      subst hc
      have h2' : ¬ ('\n' ∈ rest) := by
        simpa using h2
      simp [catchAllMatch, hd, h2']

/-- C6 amended: for every author route list and every request whose path
begins with a slash and contains no newline, matching against the compiled
route table (author routes then the synthetic catch-all) returns a
RouteMatch; paths outside that set, such as star, can fall through every
route. -/
theorem slash_paths_always_match (authors : List Route) (req : HTTPRequestM)
    (h1 : req.path.data.head? = some '/')
    (h2 : (req.path.data.drop 1).contains '\n' = false) :
    (route_match (compile_routes authors) req).isSome = true := by
  have hca := catchAll_matches_slash req.path h1 h2
  induction authors with
  | nil =>
      cases hm : catchAllMatch req.path with
      | none => rw [hm] at hca; simp at hca
      | some m => simp [compile_routes, route_match, defaultRoute, hm]
  | cons r rs ih =>
      cases hm : r.matcher req.path with
      | some m => simp [compile_routes, route_match, hm]
      | none =>
          simp only [compile_routes, List.cons_append, route_match, hm]
          simpa [compile_routes] using ih

/-- C6 witness: the amended theorem applied at the empty author route list
and the path slash foo. -/
theorem slash_paths_always_match_witness :
    (route_match (compile_routes [])
      { path := "/foo", headers := [], body := Option.none,
        finishTime := Option.none, transportClosed := false }).isSome = true :=
  slash_paths_always_match [] _ rfl rfl

/-- C3 counterexample: the claim states that a failure raised by the
initialize step of a handler is classified and handled exactly as a
dispatch failure, with a best-effort response still sent.  On a handler
whose initialize step raises, execute returns that very exception to its
caller: no classification branch ran and no response was sent. -/
theorem initialize_error_propagates_uncaught :
    execute { initOutcome := some (.otherError "boom"),
              prepareOutcome := Option.none, verb := Option.none }
        "text/html; charset=UTF-8" 1 initialLifeState =
      (initialLifeState, some (.otherError "boom")) ∧
    initialLifeState.responseSentB = false ∧
    initialLifeState.handledAs = Option.none :=
  ⟨rfl, rfl, rfl⟩

/-- C3 amended: the initialize step runs before the try block of execute,
so an exception it raises propagates out of execute unclassified and
without a response being sent, leaving the state untouched; by contrast an
exception raised inside the dispatch boundary, here a Finish signal from
prepare on a fresh request, is classified and the response is still
sent. -/
theorem initialize_failure_not_dispatch_failure
    (spec : HandlerSpec) (neg : String) (now : Nat) (st : LifeState) (e : PyExc) :
    (spec.initOutcome = some e → execute spec neg now st = (st, some e)) ∧
    (spec.initOutcome = Option.none →
     spec.prepareOutcome = some (.finishSignal Option.none) →
     st.req.finishTime = Option.none → st.resp.headersWritten = false →
       (execute spec neg now st).2 = Option.none ∧
       (execute spec neg now st).1.responseSentB = true ∧
       (execute spec neg now st).1.handledAs = some ErrClass.finishedSignal) := by
  constructor
  · intro h
    unfold execute
    rw [h]
  · intro h1 h2 h3 h4
    have hf : st.req.finished = false := by
      simp [HTTPRequestM.finished, h3]
    have e1 : hExecute spec st = (st, some (.finishSignal Option.none)) := by
      unfold hExecute
      rw [h2]
    have e2 : handle_request_exception neg st (.finishSignal Option.none) =
        ({ st with handledAs := some ErrClass.finishedSignal }, Option.none) := by
      unfold handle_request_exception handler_finish
      simp [hf]
    have key : execute spec neg now st =
        sendResponse now { st with handledAs := some ErrClass.finishedSignal } := by
      unfold execute
      rw [h1]
      simp only [e1, e2]
    rw [key]
    by_cases hcl : headerHas st.resp.headers "Content-Length" <;>
      simp [sendResponse, requestFinish, HTTPRequestM.finished, h3, h4, hcl]

/-- C3 witness: the amended theorem applied at a handler whose initialize
raises and at a handler whose prepare raises a bare Finish signal, both on
a fresh request state. -/
theorem initialize_failure_not_dispatch_failure_witness :
    execute { initOutcome := some (.otherError "w"),
              prepareOutcome := Option.none, verb := Option.none }
        "text/plain" 0 initialLifeState =
      (initialLifeState, some (.otherError "w")) ∧
    ((execute { initOutcome := Option.none,
                prepareOutcome := some (.finishSignal Option.none),
                verb := Option.none } "text/plain" 0 initialLifeState).2 =
        Option.none ∧
     (execute { initOutcome := Option.none,
                prepareOutcome := some (.finishSignal Option.none),
                verb := Option.none } "text/plain" 0 initialLifeState).1.responseSentB =
        true ∧
     (execute { initOutcome := Option.none,
                prepareOutcome := some (.finishSignal Option.none),
                verb := Option.none } "text/plain" 0 initialLifeState).1.handledAs =
        some ErrClass.finishedSignal) :=
  ⟨(initialize_failure_not_dispatch_failure _ "text/plain" 0 initialLifeState
      (.otherError "w")).1 rfl,
   (initialize_failure_not_dispatch_failure _ "text/plain" 0 initialLifeState
      (.otherError "w")).2 rfl rfl rfl rfl⟩

/-- C9: MessagePack integer width selection at the specified boundaries.
Every integer from 0 below 128 is the single byte of its value; from 128
below 2 to the 8 the prefix 0xCC with one big-endian byte; the analogous
smallest-sufficient-width encodings at the 2 to the 16 and 2 to the 32
unsigned boundaries and beyond, and on the signed side the negative fixint
byte down to -32, then the prefixes 0xD0 to 0xD3 with the two's-complement
big-endian payload of the matching width at the -2 to the 7, -2 to the 15,
-2 to the 31 and -2 to the 63 boundaries. -/
theorem msgpack_int_width_boundaries :
    (∀ n : Nat, n < 128 → packInt n = .ok [n]) ∧
    (∀ n : Nat, 128 ≤ n → n < 256 → packInt n = .ok [0xCC, n]) ∧
    (∀ n : Nat, 256 ≤ n → n < 65536 → packInt n = .ok [0xCD, n / 256, n % 256]) ∧
    (∀ n : Nat, 65536 ≤ n → n < 4294967296 →
      packInt n = .ok [0xCE, n / 16777216, n / 65536 % 256, n / 256 % 256, n % 256]) ∧
    (∀ n : Nat, 4294967296 ≤ n → n < 18446744073709551616 →
      packInt n = .ok [0xCF, n / 72057594037927936, n / 281474976710656 % 256,
        n / 1099511627776 % 256, n / 4294967296 % 256, n / 16777216 % 256,
        n / 65536 % 256, n / 256 % 256, n % 256]) ∧
    (∀ n : Int, -32 ≤ n → n ≤ -1 → packInt n = .ok [(n + 256).toNat]) ∧
    (∀ n : Int, -128 ≤ n → n < -32 → packInt n = .ok [0xD0, (n + 256).toNat]) ∧
    (∀ n : Int, -32768 ≤ n → n < -128 →
      packInt n = .ok [0xD1, (n + 65536).toNat / 256, (n + 65536).toNat % 256]) ∧
    (∀ n : Int, -2147483648 ≤ n → n < -32768 →
      packInt n = .ok [0xD2, (n + 4294967296).toNat / 16777216,
        (n + 4294967296).toNat / 65536 % 256, (n + 4294967296).toNat / 256 % 256,
        (n + 4294967296).toNat % 256]) ∧
    (∀ n : Int, -9223372036854775808 ≤ n → n < -2147483648 →
      packInt n = .ok [0xD3, (n + 18446744073709551616).toNat / 72057594037927936,
        (n + 18446744073709551616).toNat / 281474976710656 % 256,
        (n + 18446744073709551616).toNat / 1099511627776 % 256,
        (n + 18446744073709551616).toNat / 4294967296 % 256,
        (n + 18446744073709551616).toNat / 16777216 % 256,
        (n + 18446744073709551616).toNat / 65536 % 256,
        (n + 18446744073709551616).toNat / 256 % 256,
        (n + 18446744073709551616).toNat % 256]) := by
  refine ⟨?_, ?_, ?_, ?_, ?_, ?_, ?_, ?_, ?_, ?_⟩
  · intro n h1
    simp only [packInt]
    split_ifs <;>
      first
        | (exfalso; omega)
        | (simp only [beBytes_one, beBytes_two, beBytes_four, beBytes_eight,
             Except.ok.injEq, List.cons.injEq, and_true, true_and]; omega)
  · intro n h1 h2
    simp only [packInt]
    split_ifs <;>
      first
        | (exfalso; omega)
        | (simp only [beBytes_one, beBytes_two, beBytes_four, beBytes_eight,
             Except.ok.injEq, List.cons.injEq, and_true, true_and]; omega)
  · intro n h1 h2
    simp only [packInt]
    split_ifs <;>
      first
        | (exfalso; omega)
        | (simp only [beBytes_one, beBytes_two, beBytes_four, beBytes_eight,
             Except.ok.injEq, List.cons.injEq, and_true, true_and]; omega)
  · intro n h1 h2
    simp only [packInt]
    split_ifs <;>
      first
        | (exfalso; omega)
        | (simp only [beBytes_one, beBytes_two, beBytes_four, beBytes_eight,
             Except.ok.injEq, List.cons.injEq, and_true, true_and]; omega)
  · intro n h1 h2
    simp only [packInt]
    split_ifs <;>
      first
        | (exfalso; omega)
        | (simp only [beBytes_one, beBytes_two, beBytes_four, beBytes_eight,
             Except.ok.injEq, List.cons.injEq, and_true, true_and]; omega)
  · intro n h1 h2
    interval_cases n <;> rfl
  · intro n h1 h2
    interval_cases n <;> rfl
  · intro n h1 h2
    have hm : n % 65536 = n + 65536 := by
      have h9 : (n + 65536 * 1) % 65536 = n % 65536 :=
        Int.add_mul_emod_self_left n 65536 1
      have h0 : (n + 65536) % 65536 = n + 65536 :=
        Int.emod_eq_of_lt (by omega) (by omega)
      omega
    simp only [packInt, hm]
    split_ifs <;>
      first
        | (exfalso; omega)
        | (simp only [beBytes_two, Except.ok.injEq, List.cons.injEq,
             and_true, true_and]
           generalize hx : (n + 65536).toNat = x
           omega)
  · intro n h1 h2
    have hm : n % 4294967296 = n + 4294967296 := by
      have h9 : (n + 4294967296 * 1) % 4294967296 = n % 4294967296 :=
        Int.add_mul_emod_self_left n 4294967296 1
      have h0 : (n + 4294967296) % 4294967296 = n + 4294967296 :=
        Int.emod_eq_of_lt (by omega) (by omega)
      omega
    simp only [packInt, hm]
    split_ifs <;>
      first
        | (exfalso; omega)
        | (simp only [beBytes_four, Except.ok.injEq, List.cons.injEq,
             and_true, true_and]
           generalize hx : (n + 4294967296).toNat = x
           omega)
  · intro n h1 h2
    have hm : n % 18446744073709551616 = n + 18446744073709551616 := by
      have h9 : (n + 18446744073709551616 * 1) % 18446744073709551616 = n % 18446744073709551616 :=
        Int.add_mul_emod_self_left n 18446744073709551616 1
      have h0 : (n + 18446744073709551616) % 18446744073709551616 = n + 18446744073709551616 :=
        Int.emod_eq_of_lt (by omega) (by omega)
      omega
    simp only [packInt, hm]
    split_ifs <;>
      first
        | (exfalso; omega)
        | (simp only [beBytes_eight, Except.ok.injEq, List.cons.injEq,
             and_true, true_and]
           generalize hx : (n + 18446744073709551616).toNat = x
           omega)

/-- C9 witness: the boundary theorem applied at concrete integers of each
of the first widths. -/
theorem msgpack_int_width_boundaries_witness :
    packInt 5 = .ok [5] ∧ packInt 200 = .ok [0xCC, 200] ∧
    packInt 4660 = .ok [0xCD, 4660 / 256, 4660 % 256] ∧
    packInt (-5) = .ok [((-5 : Int) + 256).toNat] ∧
    packInt (-200) = .ok [0xD1, (((-200 : Int) + 65536).toNat) / 256,
      (((-200 : Int) + 65536).toNat) % 256] :=
  ⟨msgpack_int_width_boundaries.1 5 (by decide),
   msgpack_int_width_boundaries.2.1 200 (by decide) (by decide),
   msgpack_int_width_boundaries.2.2.1 4660 (by decide) (by decide),
   msgpack_int_width_boundaries.2.2.2.2.2.1 (-5) (by decide) (by decide),
   msgpack_int_width_boundaries.2.2.2.2.2.2.2.1 (-200) (by decide) (by decide)⟩

end Troika
